import Mathlib

/-!
Verification development for the provisioning-proxy backend (`src/main.py`).

The backend is a thin FastAPI proxy in front of a remote avatar-streaming
vendor API.  We embed its four handlers (`startup_event`, `get_access_token`,
`create_knowledge_base`, `get_default_config`) as pure Lean functions.  Each
remote HTTP interaction is a parameter of type `RemoteResult`: the environment
either answers with a non-success HTTP status (`raise_for_status` then raises
`httpx.HTTPStatusError`), or some other exception occurs on the way to the
parsed value (network failure, JSON parse error, missing key — all caught by
the generic `except Exception` clause), or the parsed body is delivered.
Handlers additionally return the list of remote calls they actually performed,
so "no outbound call" claims are statable.

Python truthiness on the optional strings involved (`HEYGEN_API_KEY`,
extracted ids, entry ids) is modelled by `pyTruthy`: `None` and `""` are
falsy, every other string truthy.
-/

set_option autoImplicit false

namespace StreamingAvatarBackend

/-- Outcome of one remote HTTP call, as observed by the handler after
`response.raise_for_status()` and parsing:
* `httpError status text` — the vendor answered with a non-success status,
  so `raise_for_status` raised `httpx.HTTPStatusError`;
* `exn msg` — any other exception while performing the call or extracting
  the value (network error, JSON parse error, missing key), with `str(e) = msg`;
* `ok body` — the call succeeded and the relevant part of the body parsed. -/
inductive RemoteResult (α : Type) where
  | httpError (status : Nat) (text : String)
  | exn (msg : String)
  | ok (body : α)
deriving DecidableEq

/-- `fastapi.HTTPException(status_code=..., detail=...)` as surfaced to the
client. -/
structure HTTPException where
  status_code : Nat
  detail : String
deriving DecidableEq

/-- Python truthiness of an optional string: `None` and `""` are falsy. -/
def pyTruthy : Option String → Bool
  | none => false
  | some s => !(s == "")

/-- Python `a or b` on two optional strings: `b` if `a` is falsy, else `a`. -/
def pyOr (a b : Option String) : Option String :=
  if pyTruthy a then a else b

/-- The remote calls a handler can issue. -/
inductive CallKind where
  | createToken
  | createKB
  | listKB
deriving DecidableEq

/-- The pydantic request model `KnowledgeBaseRequest` (main.py lines 86-89):
a Resource Descriptor. -/
structure KnowledgeBaseRequest where
  name : String
  opening : String
  prompt : String
deriving DecidableEq

/-- The `data` envelope of a successful create-knowledge-base response:
`data.get("data", {}).get("knowledge_base_id")` and `.get("id")`, each `None`
when the field is missing. -/
structure CreateBody where
  knowledge_base_id : Option String
  id : Option String
deriving DecidableEq

/-- One entry of the remote knowledge-base list.  The scan reads `name`,
`opening`, `prompt` and `id` via `.get`; we also carry a `knowledge_base_id`
field to record that the scan never consults it. -/
structure KBEntry where
  name : Option String
  opening : Option String
  prompt : Option String
  id : Option String
  knowledge_base_id : Option String
deriving DecidableEq

/-- Parsed body of the list call: `list_data.get("data", {}).get("list", [])`. -/
structure ListBody where
  list : List KBEntry
deriving DecidableEq

/-- Response body `{"token": token}` of `get_access_token`. -/
structure TokenResponse where
  token : String
deriving DecidableEq

/-- Response body `{"knowledge_base_id": kb_id}` of `create_knowledge_base`;
the value is the (truthy) Python value of `kb_id`. -/
structure CreateKBResponse where
  knowledge_base_id : Option String
deriving DecidableEq

/-- The loop of main.py lines 155-160 / 70-75, as a first-match function:
the first entry whose `(name, opening, prompt)` triple structurally equals the
descriptor (`kb.get("name") == request.name` is false when the field is
absent). -/
def findMatch (req : KnowledgeBaseRequest) : List KBEntry → Option KBEntry
  | [] => none
  | kb :: rest =>
      if kb.name = some req.name ∧ kb.opening = some req.opening ∧
          kb.prompt = some req.prompt then
        some kb
      else
        findMatch req rest

/-- The same loop, tracking the scanned variable itself: starting from the
(falsy) value `init` that `kb_id` / `default_kb_id` held before the loop, the
loop sets it to `kb.get("id")` of the first matching entry and breaks; if no
entry matches it keeps `init`. -/
def scanKbId (req : KnowledgeBaseRequest) (init : Option String) :
    List KBEntry → Option String
  | [] => init
  | kb :: rest =>
      if kb.name = some req.name ∧ kb.opening = some req.opening ∧
          kb.prompt = some req.prompt then
        kb.id
      else
        scanKbId req init rest

/-- Handler `POST /get-access-token` (main.py lines 93-114).  Returns the
response (or raised `HTTPException`) together with the remote calls made.
On success the extracted `data["data"]["token"]` is the `.ok` payload. -/
def get_access_token (apiKey : Option String)
    (tokenResp : RemoteResult String) :
    Except HTTPException TokenResponse × List CallKind :=
  if !pyTruthy apiKey then
    (.error ⟨500, "API key is missing from environment"⟩, [])
  else
    match tokenResp with
    | .httpError st _text =>
        (.error ⟨st, "Failed to retrieve access token"⟩, [.createToken])
    | .exn msg => (.error ⟨500, msg⟩, [.createToken])
    | .ok tok => (.ok ⟨tok⟩, [.createToken])

/-- Detail string of the "could not determine identifier" failure.  The
source raises `HTTPException(500, "Failed to retrieve knowledge base ID")`
inside the `try` block (line 163); that exception is not an
`httpx.HTTPStatusError`, so it is caught by the generic
`except Exception as e` clause (line 168) and re-raised as
`HTTPException(500, str(e))`, where Starlette renders
`str(e) = f"{status_code}: {detail}"`. -/
def noKbIdDetail : String := "500: Failed to retrieve knowledge base ID"

/-- Handler `POST /create-knowledge-base` (main.py lines 116-169). -/
def create_knowledge_base (apiKey : Option String)
    (request : KnowledgeBaseRequest)
    (createResp : RemoteResult CreateBody)
    (listResp : RemoteResult ListBody) :
    Except HTTPException CreateKBResponse × List CallKind :=
  if !pyTruthy apiKey then
    (.error ⟨500, "API key is missing from environment"⟩, [])
  else
    match createResp with
    | .httpError st _text =>
        (.error ⟨st, "Failed to create or retrieve knowledge base"⟩,
          [.createKB])
    | .exn msg => (.error ⟨500, msg⟩, [.createKB])
    | .ok body =>
        let kb_id := pyOr body.knowledge_base_id body.id
        if pyTruthy kb_id then
          (.ok ⟨kb_id⟩, [.createKB])
        else
          match listResp with
          | .httpError st _text =>
              (.error ⟨st, "Failed to create or retrieve knowledge base"⟩,
                [.createKB, .listKB])
          | .exn msg => (.error ⟨500, msg⟩, [.createKB, .listKB])
          | .ok lbody =>
              let kb_id2 := scanKbId request kb_id lbody.list
              if pyTruthy kb_id2 then
                (.ok ⟨kb_id2⟩, [.createKB, .listKB])
              else
                (.error ⟨500, noKbIdDetail⟩, [.createKB, .listKB])

/-- The hardcoded Resource Descriptor of startup provisioning
(main.py lines 47-51). -/
def defaultDescriptor : KnowledgeBaseRequest where
  name := "Office Query Solver"
  opening := "starts with a greeting"
  prompt := "You are an IT industry office query solver. Help users with workplace-related queries in the IT industry, such as software development, project management, team collaboration, and technical challenges."

/-- Startup provisioning (main.py lines 29-84).  Returns the final value of
the global `default_kb_id` (initially `None`) together with the remote calls
made.  Any exception inside the `try` block resets `default_kb_id` to `None`
(line 84); a missing API key skips provisioning entirely (lines 33-35). -/
def startup_event (apiKey : Option String)
    (createResp : RemoteResult CreateBody)
    (listResp : RemoteResult ListBody) :
    Option String × List CallKind :=
  if !pyTruthy apiKey then
    (none, [])
  else
    match createResp with
    | .httpError _st _text => (none, [.createKB])
    | .exn _msg => (none, [.createKB])
    | .ok body =>
        let kbid := pyOr body.knowledge_base_id body.id
        if pyTruthy kbid then
          (kbid, [.createKB])
        else
          match listResp with
          | .httpError _st _text => (none, [.createKB, .listKB])
          | .exn _msg => (none, [.createKB, .listKB])
          | .ok lbody =>
              (scanKbId defaultDescriptor kbid lbody.list,
                [.createKB, .listKB])

/-- Primitive JSON values occurring in the static configuration. -/
inductive JPrim where
  | null
  | str (s : String)
  | num (numer : Int) (denom : Nat)
deriving DecidableEq

/-- A configuration value: a primitive or a one-level nested object. -/
inductive JVal where
  | prim (p : JPrim)
  | obj (fields : List (String × JPrim))
deriving DecidableEq

/-- JSON string value. -/
def jstr (s : String) : JVal := .prim (.str s)

/-- JSON null value. -/
def jnull : JVal := .prim .null

/-- Dictionary lookup: value of the first binding of `key`. -/
def jlookup : List (String × JVal) → String → Option JVal
  | [], _ => none
  | (k, v) :: rest, key => if k = key then some v else jlookup rest key

/-- The constant part of the configuration dict built by
`get_default_config` (main.py lines 178-192), in insertion order.
`1.5` is represented exactly as the rational `num 3 2`. -/
def baseConfig : List (String × JVal) :=
  [("quality", jstr "Low"),
   ("avatar_name", jstr "Elenora_IT_Sitting_public"),
   ("voice", .obj [("rate", .num 3 2), ("emotion", .str "EXCITED"),
     ("model", .str "eleven_flash_v2_5")]),
   ("language", jstr "en"),
   ("voice_chat_transport", jstr "WEBSOCKET"),
   ("stt_settings", .obj [("provider", .str "DEEPGRAM")]),
   ("opening_message", jstr "Hello! I am ready to chat.")]

/-- Handler `GET /get-default-config` (main.py lines 173-199): the constant
dict, then `config["knowledge_id"]` set to the cached `default_kb_id` if it
is truthy and to `None` otherwise.  A pure total function of the cached
value: it performs no remote call and cannot fail. -/
def get_default_config (default_kb_id : Option String) :
    List (String × JVal) :=
  if pyTruthy default_kb_id then
    baseConfig ++ [("knowledge_id", jstr (default_kb_id.getD ""))]
  else
    baseConfig ++ [("knowledge_id", jnull)]

/-- An incoming request, bundling the remote responses its handling will
observe. -/
inductive Request where
  | getAccessTokenLine (tokenResp : RemoteResult String)
  | createKBLine (req : KnowledgeBaseRequest)
      (createResp : RemoteResult CreateBody) (listResp : RemoteResult ListBody)
  | getDefaultConfigLine
  | rootLine
deriving DecidableEq

/-- View of an `Except` value as a sum, to derive decidable equality. -/
def exceptToSum {ε α : Type} : Except ε α → ε ⊕ α
  | .error e => .inl e
  | .ok a => .inr a

instance {ε α : Type} [DecidableEq ε] [DecidableEq α] :
    DecidableEq (Except ε α) := fun a b =>
  decidable_of_iff (exceptToSum a = exceptToSum b)
    (by cases a <;> cases b <;> simp [exceptToSum])

/-- A handler response, tagged by endpoint. -/
inductive Response where
  | tokenOut (r : Except HTTPException TokenResponse)
  | kbOut (r : Except HTTPException CreateKBResponse)
  | configOut (c : List (String × JVal))
  | messageOut (s : String)
deriving DecidableEq

/-- Dispatch one request against the current process state (the cached
`default_kb_id`).  No handler assigns the global `default_kb_id`
(`get_default_config` declares `global default_kb_id` but only reads it), so
the state component is returned unchanged. -/
def handle_request (apiKey : Option String) (st : Option String) :
    Request → Option String × Response
  | .getAccessTokenLine tr => (st, .tokenOut (get_access_token apiKey tr).1)
  | .createKBLine req c l =>
      (st, .kbOut (create_knowledge_base apiKey req c l).1)
  | .getDefaultConfigLine => (st, .configOut (get_default_config st))
  | .rootLine => (st, .messageOut "Streaming Avatar FastAPI Backend")

/-- Serve a sequence of requests, threading the process state. -/
def serve (apiKey : Option String) (st : Option String) :
    List Request → Option String × List Response
  | [] => (st, [])
  | r :: rs =>
      let step := handle_request apiKey st r
      let rest := serve apiKey step.1 rs
      (rest.1, step.2 :: rest.2)

/-- A whole process run: startup provisioning first (it completes before any
request is served), then the request sequence. -/
def processRun (apiKey : Option String)
    (createResp : RemoteResult CreateBody) (listResp : RemoteResult ListBody)
    (reqs : List Request) : Option String × List Response :=
  serve apiKey (startup_event apiKey createResp listResp).1 reqs

/-! ## Helper lemmas -/

/-- The break-at-first-match loop computes the `id` of the first structurally
matching entry, and keeps the initial value when no entry matches. -/
theorem scanKbId_eq_findMatch (req : KnowledgeBaseRequest)
    (init : Option String) (l : List KBEntry) :
    scanKbId req init l = ((findMatch req l).map KBEntry.id).getD init := by
  induction l with
  | nil => rfl
  | cons kb rest ih =>
      by_cases h : kb.name = some req.name ∧ kb.opening = some req.opening ∧
          kb.prompt = some req.prompt
      · simp [scanKbId, findMatch, h]
      · simp [scanKbId, findMatch, h, ih]

/-- A successful `create_knowledge_base` response implies the credential was
present and the returned identifier is truthy (non-`None`, non-empty). -/
theorem create_ok_truthy (key : Option String) (req : KnowledgeBaseRequest)
    (c : RemoteResult CreateBody) (l : RemoteResult ListBody)
    (r : CreateKBResponse)
    (h : (create_knowledge_base key req c l).1 = .ok r) :
    pyTruthy key = true ∧ pyTruthy r.knowledge_base_id = true := by
  by_cases hk : pyTruthy key
  · refine ⟨hk, ?_⟩
    cases c with
    | httpError st t => simp [create_knowledge_base, hk] at h
    | exn m => simp [create_knowledge_base, hk] at h
    | ok body =>
        by_cases he : pyTruthy (pyOr body.knowledge_base_id body.id)
        · simp [create_knowledge_base, hk, he] at h
          simp [← h, he]
        · cases l with
          | httpError st t => simp [create_knowledge_base, hk, he] at h
          | exn m => simp [create_knowledge_base, hk, he] at h
          | ok lbody =>
              by_cases hs : pyTruthy
                  (scanKbId req (pyOr body.knowledge_base_id body.id)
                    lbody.list)
              · simp [create_knowledge_base, hk, he, hs] at h
                simp [← h, hs]
              · simp [create_knowledge_base, hk, he, hs] at h
  · simp [create_knowledge_base, hk] at h

/-- Dispatching one request never changes the cached identifier. -/
theorem handle_request_state (key st : Option String) (r : Request) :
    (handle_request key st r).1 = st := by
  cases r <;> rfl

/-- Serving any request sequence never changes the cached identifier. -/
theorem serve_state (key st : Option String) (rs : List Request) :
    (serve key st rs).1 = st := by
  induction rs generalizing st with
  | nil => rfl
  | cons r rs ih =>
      show (serve key (handle_request key st r).1 rs).1 = st
      rw [handle_request_state]
      exact ih st

/-- Serving answers every request: one response per request. -/
theorem serve_length (key st : Option String) (rs : List Request) :
    (serve key st rs).2.length = rs.length := by
  induction rs generalizing st with
  | nil => rfl
  | cons r rs ih =>
      show ((handle_request key st r).2 ::
        (serve key (handle_request key st r).1 rs).2).length = rs.length + 1
      simp [ih]

/-! ## Claims -/

/-- C2 (confirmed): for a successful remote create response the identifier is
extracted as `data.knowledge_base_id or data.id`; when that Python `or` is
truthy, `create_knowledge_base` responds `{knowledge_base_id: <it>}` and
startup provisioning caches it, and the `or` takes `knowledge_base_id` first
and `id` second, first truthy (non-empty) value winning. -/
theorem C2_extraction_order (key : Option String) (req : KnowledgeBaseRequest)
    (body : CreateBody) (l : RemoteResult ListBody)
    (hk : pyTruthy key = true)
    (hid : pyTruthy (pyOr body.knowledge_base_id body.id) = true) :
    (create_knowledge_base key req (.ok body) l).1 =
      .ok ⟨pyOr body.knowledge_base_id body.id⟩ ∧
    (startup_event key (.ok body) l).1 = pyOr body.knowledge_base_id body.id ∧
    (pyTruthy body.knowledge_base_id = true →
      pyOr body.knowledge_base_id body.id = body.knowledge_base_id) ∧
    (pyTruthy body.knowledge_base_id = false →
      pyOr body.knowledge_base_id body.id = body.id) := by
  refine ⟨?_, ?_, ?_, ?_⟩
  · simp [create_knowledge_base, hk, hid]
  · simp [startup_event, hk, hid]
  · intro h; simp [pyOr, h]
  · intro h; simp [pyOr, h]

/-- C2 witness: the spec scenario — create returns `{data: {id: "kb_123"}}`,
the endpoint responds `{knowledge_base_id: "kb_123"}`. -/
theorem C2_extraction_order_witness :
    (create_knowledge_base (some "key") ⟨"n", "o", "p"⟩
        (.ok ⟨none, some "kb_123"⟩) (.ok ⟨[]⟩)).1 = .ok ⟨some "kb_123"⟩ :=
  (C2_extraction_order (some "key") ⟨"n", "o", "p"⟩ ⟨none, some "kb_123"⟩
    (.ok ⟨[]⟩) (by decide) (by decide)).1

/-- C4 (confirmed): with the credential absent (unset or empty), both
`get_access_token` and `create_knowledge_base` fail with HTTP 500 and the
credential-missing detail, and issue no remote call (empty call trace),
whatever the environment would have answered. -/
theorem C4_missing_credential (key : Option String)
    (hk : pyTruthy key = false) (tr : RemoteResult String)
    (req : KnowledgeBaseRequest) (c : RemoteResult CreateBody)
    (l : RemoteResult ListBody) :
    get_access_token key tr =
      (.error ⟨500, "API key is missing from environment"⟩, []) ∧
    create_knowledge_base key req c l =
      (.error ⟨500, "API key is missing from environment"⟩, []) := by
  constructor
  · simp [get_access_token, hk]
  · simp [create_knowledge_base, hk]

/-- C4 witness: empty-string credential for the token endpoint, unset
credential for the create endpoint. -/
theorem C4_missing_credential_witness :
    get_access_token (some "") (.ok "tok") =
      (.error ⟨500, "API key is missing from environment"⟩, []) ∧
    create_knowledge_base none ⟨"n", "o", "p"⟩ (.ok ⟨some "kb", none⟩)
        (.ok ⟨[]⟩) =
      (.error ⟨500, "API key is missing from environment"⟩, []) :=
  ⟨(C4_missing_credential (some "") (by decide) (.ok "tok") ⟨"n", "o", "p"⟩
      (.ok ⟨some "kb", none⟩) (.ok ⟨[]⟩)).1,
   (C4_missing_credential none (by decide) (.ok "tok") ⟨"n", "o", "p"⟩
      (.ok ⟨some "kb", none⟩) (.ok ⟨[]⟩)).2⟩

/-- C5 (confirmed): with the credential present, a remote non-success HTTP
status makes both endpoints fail with exactly that status and a generic
detail (for `create_knowledge_base`, on the create call and on the list
call alike), and every other remote failure maps to HTTP 500 carrying the
failure description. -/
theorem C5_remote_errors (key : Option String) (hk : pyTruthy key = true)
    (req : KnowledgeBaseRequest) (st : Nat) (txt msg : String)
    (l : RemoteResult ListBody) (body : CreateBody)
    (hext : pyTruthy (pyOr body.knowledge_base_id body.id) = false) :
    (get_access_token key (.httpError st txt)).1 =
      .error ⟨st, "Failed to retrieve access token"⟩ ∧
    (get_access_token key (.exn msg)).1 = .error ⟨500, msg⟩ ∧
    (create_knowledge_base key req (.httpError st txt) l).1 =
      .error ⟨st, "Failed to create or retrieve knowledge base"⟩ ∧
    (create_knowledge_base key req (.exn msg) l).1 = .error ⟨500, msg⟩ ∧
    (create_knowledge_base key req (.ok body) (.httpError st txt)).1 =
      .error ⟨st, "Failed to create or retrieve knowledge base"⟩ ∧
    (create_knowledge_base key req (.ok body) (.exn msg)).1 =
      .error ⟨500, msg⟩ := by
  refine ⟨?_, ?_, ?_, ?_, ?_, ?_⟩ <;>
    simp [get_access_token, create_knowledge_base, hk, hext]

/-- C5 witness: the spec scenario — the token endpoint relays a remote 401
with the generic detail; a network failure on the create call maps to 500
with its description. -/
theorem C5_remote_errors_witness :
    (get_access_token (some "key") (.httpError 401 "unauthorized")).1 =
      .error ⟨401, "Failed to retrieve access token"⟩ ∧
    (create_knowledge_base (some "key") ⟨"n", "o", "p"⟩
        (.exn "connection refused") (.ok ⟨[]⟩)).1 =
      .error ⟨500, "connection refused"⟩ :=
  ⟨(C5_remote_errors (some "key") (by decide) ⟨"n", "o", "p"⟩ 401
      "unauthorized" "connection refused" (.ok ⟨[]⟩) ⟨none, none⟩
      (by decide)).1,
   (C5_remote_errors (some "key") (by decide) ⟨"n", "o", "p"⟩ 401
      "unauthorized" "connection refused" (.ok ⟨[]⟩) ⟨none, none⟩
      (by decide)).2.2.2.1⟩

/-- C1 counterexample: create succeeds with `{data: {}}` and the list's first
structurally matching entry has no `id` field (it even carries a
`knowledge_base_id`), so although a matching entry exists the endpoint does
not respond with an identifier — it fails with HTTP 500, contrary to the
claim that it responds `{knowledge_base_id: <that entry's identifier>}`
whenever a matching entry exists. -/
theorem C1_counterexample :
    findMatch ⟨"n", "o", "p"⟩
        [⟨some "n", some "o", some "p", none, some "kb_X"⟩] =
      some ⟨some "n", some "o", some "p", none, some "kb_X"⟩ ∧
    (create_knowledge_base (some "key") ⟨"n", "o", "p"⟩ (.ok ⟨none, none⟩)
        (.ok ⟨[⟨some "n", some "o", some "p", none, some "kb_X"⟩]⟩)).1 =
      .error ⟨500, noKbIdDetail⟩ := by
  constructor <;> rfl

/-- C1 (corrected): when create succeeds but the extracted identifier is
falsy, the endpoint fetches the remote list (call trace `[createKB, listKB]`)
and scans it for the first `(name, opening, prompt)` match; it responds with
that entry's `id` when that `id` is non-empty, and fails with HTTP 500 both
when no entry matches and when the first matching entry lacks a non-empty
`id`. -/
theorem C1_list_fallback (key : Option String) (req : KnowledgeBaseRequest)
    (body : CreateBody) (lbody : ListBody)
    (hk : pyTruthy key = true)
    (hext : pyTruthy (pyOr body.knowledge_base_id body.id) = false) :
    (create_knowledge_base key req (.ok body) (.ok lbody)).2 =
      [CallKind.createKB, CallKind.listKB] ∧
    (∀ kb, findMatch req lbody.list = some kb → pyTruthy kb.id = true →
      (create_knowledge_base key req (.ok body) (.ok lbody)).1 =
        .ok ⟨kb.id⟩) ∧
    (∀ kb, findMatch req lbody.list = some kb → pyTruthy kb.id = false →
      (create_knowledge_base key req (.ok body) (.ok lbody)).1 =
        .error ⟨500, noKbIdDetail⟩) ∧
    (findMatch req lbody.list = none →
      (create_knowledge_base key req (.ok body) (.ok lbody)).1 =
        .error ⟨500, noKbIdDetail⟩) := by
  refine ⟨?_, ?_, ?_, ?_⟩
  · by_cases hs : pyTruthy
        (scanKbId req (pyOr body.knowledge_base_id body.id) lbody.list) <;>
      simp [create_knowledge_base, hk, hext, hs]
  · intro kb hf hid
    simp [create_knowledge_base, hk, hext, scanKbId_eq_findMatch, hf, hid]
  · intro kb hf hid
    simp [create_knowledge_base, hk, hext, scanKbId_eq_findMatch, hf, hid]
  · intro hf
    simp [create_knowledge_base, hk, hext, scanKbId_eq_findMatch, hf]

/-- C1 witness: the spec scenario — create returns `{data: {}}`, the list
has a matching entry with `id: "kb_999"`, and the endpoint responds
`{knowledge_base_id: "kb_999"}`. -/
theorem C1_list_fallback_witness :
    (create_knowledge_base (some "key") ⟨"n", "o", "p"⟩ (.ok ⟨none, none⟩)
        (.ok ⟨[⟨some "n", some "o", some "p", some "kb_999", none⟩]⟩)).1 =
      .ok ⟨some "kb_999"⟩ :=
  (C1_list_fallback (some "key") ⟨"n", "o", "p"⟩ ⟨none, none⟩
      ⟨[⟨some "n", some "o", some "p", some "kb_999", none⟩]⟩
      (by decide) (by decide)).2.1
    ⟨some "n", some "o", some "p", some "kb_999", none⟩ (by decide) (by decide)

/-- C3 (confirmed): a second `create_knowledge_base` call with the same
descriptor returns the same identifier as the first, provided the remote
service is idempotent/consistent: either its second create response carries
the first call's identifier, or it yields no identifier and the first
structurally matching list entry carries the first call's identifier. -/
theorem C3_idempotent (key : Option String) (req : KnowledgeBaseRequest)
    (c1 : RemoteResult CreateBody) (l1 : RemoteResult ListBody)
    (body2 : CreateBody) (lbody2 : ListBody) (id1 : String)
    (h1 : (create_knowledge_base key req c1 l1).1 = .ok ⟨some id1⟩)
    (hconsist : pyOr body2.knowledge_base_id body2.id = some id1 ∨
      (pyTruthy (pyOr body2.knowledge_base_id body2.id) = false ∧
       ∃ kb, findMatch req lbody2.list = some kb ∧ kb.id = some id1)) :
    (create_knowledge_base key req (.ok body2) (.ok lbody2)).1 =
      .ok ⟨some id1⟩ := by
  obtain ⟨hk, hid⟩ := create_ok_truthy key req c1 l1 ⟨some id1⟩ h1
  rcases hconsist with he | ⟨hfalsy, kb, hf, hkbid⟩
  · simp [create_knowledge_base, hk, he, hid]
  · simp [create_knowledge_base, hk, hfalsy, scanKbId_eq_findMatch, hf,
      hkbid, hid]

/-- C3 witness: the first call gets `kb_1` straight from the create response;
the second call's create response is empty but the remote list now contains
the matching entry with `id: "kb_1"`, and the second call returns `kb_1`
again. -/
theorem C3_idempotent_witness :
    (create_knowledge_base (some "key") ⟨"a", "b", "c"⟩ (.ok ⟨none, none⟩)
        (.ok ⟨[⟨some "a", some "b", some "c", some "kb_1", none⟩]⟩)).1 =
      .ok ⟨some "kb_1"⟩ :=
  C3_idempotent (some "key") ⟨"a", "b", "c"⟩ (.ok ⟨some "kb_1", none⟩)
    (.ok ⟨[]⟩) ⟨none, none⟩
    ⟨[⟨some "a", some "b", some "c", some "kb_1", none⟩]⟩ "kb_1" (by decide)
    (Or.inr ⟨by decide,
      ⟨some "a", some "b", some "c", some "kb_1", none⟩, by decide, rfl⟩)

/-- The appended `knowledge_id` binding is found after the seven constant
keys of `baseConfig`. -/
theorem jlookup_config_tail (v : JVal) :
    jlookup (baseConfig ++ [("knowledge_id", v)]) "knowledge_id" = some v := by
  simp [baseConfig, jlookup]

/-- C6 (confirmed): `get_default_config` is a total function of the cached
identifier alone (no remote interaction, no failure), its `knowledge_id`
field is either null or a non-empty string — never the empty string — and
every other configuration field is a fixed constant. -/
theorem C6_default_config (g : Option String) :
    (jlookup (get_default_config g) "knowledge_id" = some jnull ∨
      (∃ s, s ≠ "" ∧
        jlookup (get_default_config g) "knowledge_id" = some (jstr s))) ∧
    jlookup (get_default_config g) "quality" = some (jstr "Low") ∧
    jlookup (get_default_config g) "avatar_name" =
      some (jstr "Elenora_IT_Sitting_public") ∧
    jlookup (get_default_config g) "voice" =
      some (.obj [("rate", .num 3 2), ("emotion", .str "EXCITED"),
        ("model", .str "eleven_flash_v2_5")]) ∧
    jlookup (get_default_config g) "language" = some (jstr "en") ∧
    jlookup (get_default_config g) "voice_chat_transport" =
      some (jstr "WEBSOCKET") ∧
    jlookup (get_default_config g) "stt_settings" =
      some (.obj [("provider", .str "DEEPGRAM")]) ∧
    jlookup (get_default_config g) "opening_message" =
      some (jstr "Hello! I am ready to chat.") := by
  by_cases h : pyTruthy g
  · refine ⟨?_, ?_, ?_, ?_, ?_, ?_, ?_, ?_⟩ <;>
      simp [get_default_config, h, baseConfig, jlookup]
    cases g with
    | none => simp [pyTruthy] at h
    | some s =>
        exact Or.inr ⟨s, by simpa [pyTruthy] using h, rfl⟩
  · refine ⟨Or.inl ?_, ?_, ?_, ?_, ?_, ?_, ?_, ?_⟩ <;>
      simp [get_default_config, h, baseConfig, jlookup]

/-- C7 (confirmed): the cached identifier is produced exactly once, by
startup provisioning which completes before requests are served; no request
handler writes it, so after any request sequence the cached value is still
the startup outcome (including the absent outcome when provisioning
failed). -/
theorem C7_cache_immutable (key : Option String)
    (cresp : RemoteResult CreateBody) (lresp : RemoteResult ListBody)
    (reqs : List Request) :
    (processRun key cresp lresp reqs).1 =
      (startup_event key cresp lresp).1 ∧
    (∀ st rs, (serve key st rs).1 = st) :=
  ⟨serve_state key _ reqs, fun st rs => serve_state key st rs⟩

/-- C8 (confirmed): a missing credential makes startup skip provisioning
entirely (no remote call, cache absent); any remote failure during the
create or list step leaves the cache absent; and in every case the process
goes on to answer each subsequent request. -/
theorem C8_startup_resilient (key : Option String)
    (cresp : RemoteResult CreateBody) (lresp : RemoteResult ListBody)
    (reqs : List Request) :
    (pyTruthy key = false → startup_event key cresp lresp = (none, [])) ∧
    (∀ st txt, (startup_event key (.httpError st txt) lresp).1 = none) ∧
    (∀ msg, (startup_event key (.exn msg) lresp).1 = none) ∧
    (∀ body st txt,
      pyTruthy (pyOr body.knowledge_base_id body.id) = false →
      (startup_event key (.ok body) (.httpError st txt)).1 = none) ∧
    (∀ body msg,
      pyTruthy (pyOr body.knowledge_base_id body.id) = false →
      (startup_event key (.ok body) (.exn msg)).1 = none) ∧
    (processRun key cresp lresp reqs).2.length = reqs.length := by
  refine ⟨?_, ?_, ?_, ?_, ?_, ?_⟩
  · intro h; simp [startup_event, h]
  · intro st txt; by_cases h : pyTruthy key <;> simp [startup_event, h]
  · intro msg; by_cases h : pyTruthy key <;> simp [startup_event, h]
  · intro body st txt hext
    by_cases h : pyTruthy key <;> simp [startup_event, h, hext]
  · intro body msg hext
    by_cases h : pyTruthy key <;> simp [startup_event, h, hext]
  · exact serve_length key _ reqs

/-- C8 witness: startup with no credential issues no call and caches
nothing; a remote 503 on the create step and a timeout on the list step
each leave the cache absent. -/
theorem C8_startup_resilient_witness :
    startup_event none (.ok ⟨some "kb", none⟩) (.ok ⟨[]⟩) = (none, []) ∧
    (startup_event (some "key") (.httpError 503 "unavailable")
      (.ok ⟨[]⟩)).1 = none ∧
    (startup_event (some "key") (.ok ⟨none, none⟩) (.exn "timeout")).1 =
      none :=
  ⟨(C8_startup_resilient none (.ok ⟨some "kb", none⟩) (.ok ⟨[]⟩) []).1 rfl,
   (C8_startup_resilient (some "key") (.httpError 503 "unavailable")
      (.ok ⟨[]⟩) []).2.1 503 "unavailable",
   (C8_startup_resilient (some "key") (.ok ⟨none, none⟩) (.exn "timeout")
      []).2.2.2.2.1 ⟨none, none⟩ "timeout" (by decide)⟩

/-- C9 (confirmed): the fallback scan reads only the `id` field of the first
structurally matching entry — if that `id` is absent or empty (whatever any
`knowledge_base_id` field of the entry says, and whatever later matching
entries hold), `create_knowledge_base` fails with HTTP 500 and startup
leaves the cache without a usable identifier (`get_default_config` then
reports `knowledge_id: null`). -/
theorem C9_first_match_only_id (key : Option String)
    (req : KnowledgeBaseRequest) (body : CreateBody) (lbody : ListBody)
    (kb : KBEntry)
    (hk : pyTruthy key = true)
    (hext : pyTruthy (pyOr body.knowledge_base_id body.id) = false)
    (hf : findMatch req lbody.list = some kb)
    (hid : pyTruthy kb.id = false) :
    (create_knowledge_base key req (.ok body) (.ok lbody)).1 =
      .error ⟨500, noKbIdDetail⟩ ∧
    (∀ lb kb2, findMatch defaultDescriptor lb.list = some kb2 →
      pyTruthy kb2.id = false →
      pyTruthy (startup_event key (.ok body) (.ok lb)).1 = false ∧
      jlookup (get_default_config (startup_event key (.ok body) (.ok lb)).1)
          "knowledge_id" = some jnull) := by
  constructor
  · simp [create_knowledge_base, hk, hext, scanKbId_eq_findMatch, hf, hid]
  · intro lb kb2 hf2 hid2
    have hres : (startup_event key (.ok body) (.ok lb)).1 = kb2.id := by
      simp [startup_event, hk, hext, scanKbId_eq_findMatch, hf2]
    refine ⟨hres ▸ hid2, ?_⟩
    rw [hres]
    simp [get_default_config, hid2, jlookup_config_tail]

/-- C9 witness: the first matching entry lacks `id` but carries
`knowledge_base_id: "kb_X"`, and a later matching entry carries
`id: "kb_2"`; the endpoint still fails with HTTP 500. -/
theorem C9_first_match_only_id_witness :
    (create_knowledge_base (some "key") ⟨"n", "o", "p"⟩ (.ok ⟨none, none⟩)
        (.ok ⟨[⟨some "n", some "o", some "p", none, some "kb_X"⟩,
               ⟨some "n", some "o", some "p", some "kb_2", none⟩]⟩)).1 =
      .error ⟨500, noKbIdDetail⟩ :=
  (C9_first_match_only_id (some "key") ⟨"n", "o", "p"⟩ ⟨none, none⟩
      ⟨[⟨some "n", some "o", some "p", none, some "kb_X"⟩,
        ⟨some "n", some "o", some "p", some "kb_2", none⟩]⟩
      ⟨some "n", some "o", some "p", none, some "kb_X"⟩
      (by decide) (by decide) (by decide) (by decide)).1

/-- C10 (confirmed): the configuration returned by `get_default_config`
always binds the `knowledge_id` key; when the cached identifier is falsy
(absent or empty) the key is present with value null, not omitted. -/
theorem C10_knowledge_id_present (g : Option String) :
    jlookup (get_default_config g) "knowledge_id" ≠ none ∧
    (pyTruthy g = false →
      jlookup (get_default_config g) "knowledge_id" = some jnull) := by
  by_cases h : pyTruthy g <;>
    simp [get_default_config, h, jlookup_config_tail]

/-- C10 witness: with an absent cache and with an empty-string cache, the
returned configuration binds `knowledge_id` to null. -/
theorem C10_knowledge_id_present_witness :
    jlookup (get_default_config none) "knowledge_id" = some jnull ∧
    jlookup (get_default_config (some "")) "knowledge_id" = some jnull :=
  ⟨(C10_knowledge_id_present none).2 rfl,
   (C10_knowledge_id_present (some "")).2 (by decide)⟩

end StreamingAvatarBackend
